import Mathlib

/-!
Shallow embedding of the network client layer of smartscript-builder:
the typed HTTP request client (`src/services/api/config.ts`, class
`ApiClient`, method `request`) and the realtime execution-update
WebSocket channel (class `ExecutionWebSocket`).

The embedding follows the TypeScript source line by line.  Stateful
code becomes explicit state passing (`WSState`) plus a step function
over externally delivered events; the observable actions (callback
invocations, socket creation/closing, timer scheduling/cancelling)
are emitted as an output list.
-/

namespace SmartScript

/-- JavaScript `a || b` on an optional string: `undefined`/`null` and the
empty string are falsy, so both fall through to the default. -/
def jsStringOr : Option String → String → String
  | some m, d => if m = "" then d else m
  | none, d => d

/-! ## HTTP request client (`ApiClient.request` in config.ts)

`API_CONFIG.TIMEOUT = 30000`.  The method races `fetch` against a
timer that calls `controller.abort()` at `this.timeout`, then
classifies the outcome:
  * non-`ok` response: parse the body as an `ApiError`, falling back to
    the object with `error` set to the generic text `Request failed` and
    `detail` set to `response.statusText` when parsing throws, and throw
    an `ApiRequestError` built from `errorData.error` (or the same
    generic text when that field is falsy), `response.status`, and
    `errorData`;
  * `ok` response with empty body: resolve with the empty object;
  * `ok` response with non-empty body: resolve with the parsed JSON;
  * rejection whose error is named `AbortError`: throw an
    `ApiRequestError` with message `Request timeout` and status 408;
  * any other rejection: throw an `ApiRequestError` with the message of
    the error and status 0. -/

/-- Model of the `ApiError` payload (`types.ts`): `{error, detail?}`
(the optional `code` field is never read by the client and is omitted). -/
structure ApiErrorM where
  error : Option String
  detail : Option String
  deriving Repr, DecidableEq

/-- Model of the `ApiRequestError` thrown by `ApiClient.request`:
message, HTTP-like status, and the optional structured payload. -/
structure ApiRequestErrorM where
  message : String
  status : Nat
  data : Option ApiErrorM
  deriving Repr, DecidableEq

/-- Abstract result of `JSON.parse` on a response body: the fields the
client reads when the body is treated as an `ApiError`, plus an opaque
tag `val` standing for the rest of the parsed value. -/
structure JsonVal where
  errorField : Option String
  detailField : Option String
  val : Nat
  deriving Repr, DecidableEq

/-- An HTTP response as observed by the client: `ok`/`status`/`statusText`
from the `Response` object, the body text, and the JSON parse of that
body (`none` when `JSON.parse`/`response.json()` would throw). -/
structure HttpResp where
  ok : Bool
  status : Nat
  statusText : String
  bodyText : String
  bodyJson : Option JsonVal
  deriving Repr, DecidableEq

/-- What the underlying `fetch` call would do, absent an abort:
settle at time `t` (milliseconds since the request started) with either
a response or a rejection carrying an error `name` and `message`.
An environment-caused abort (one that does not come from the timer of
the client itself) appears as a rejection named `AbortError` whose
settle time is at or before the timeout. -/
inductive FetchBehavior where
  | response (t : Nat) (r : HttpResp)
  | reject (t : Nat) (name : String) (msg : String)
  deriving Repr, DecidableEq

/-- Time at which the `fetch` promise settles on its own. -/
def FetchBehavior.settleTime : FetchBehavior → Nat
  | .response t _ => t
  | .reject t _ _ => t

/-- Successful resolution of `request<T>`: `{}` for an empty body,
otherwise the parsed JSON value. -/
inductive RespValue where
  | empty
  | parsed (v : Nat)
  deriving Repr, DecidableEq

/-- Message substituted when `JSON.parse` throws on a non-empty 2xx body
(the message of the thrown parse error; its exact text is
runtime-dependent and never inspected by the client). -/
def jsonParseFailureMessage : String := "Unexpected token in JSON"

/-- Method `ApiClient.request`, modelled over a `FetchBehavior`.  Returns the
settled result together with the number of times `controller.abort()`
ran: the timer fires (and aborts the in-flight call) exactly when the
fetch has not settled by the deadline, in which case the promise
rejects with an `AbortError`; otherwise `clearTimeout` wins and the
abort never runs. -/
def request (timeout : Nat) (b : FetchBehavior) :
    Except ApiRequestErrorM RespValue × Nat :=
  if timeout < b.settleTime then
    -- the timer fired first: abort once, fetch rejects with AbortError
    (.error ⟨"Request timeout", 408, none⟩, 1)
  else
    match b with
    | .reject _ name msg =>
      if name = "AbortError" then (.error ⟨"Request timeout", 408, none⟩, 0)
      else (.error ⟨msg, 0, none⟩, 0)
    | .response _ r =>
      if !r.ok then
        let errorData : ApiErrorM :=
          match r.bodyJson with
          | some j => ⟨j.errorField, j.detailField⟩
          | none => ⟨some "Request failed", some r.statusText⟩
        (.error ⟨jsStringOr errorData.error "Request failed", r.status,
                 some errorData⟩, 0)
      else if r.bodyText = "" then (.ok .empty, 0)
      else
        match r.bodyJson with
        | some j => (.ok (.parsed j.val), 0)
        | none => (.error ⟨jsonParseFailureMessage, 0, none⟩, 0)

/-- The status carried by a failed request, `none` on success. -/
def resultStatus : Except ApiRequestErrorM RespValue → Option Nat
  | .error e => some e.status
  | .ok _ => none

/-! ## Realtime channel (`ExecutionWebSocket` in the WebSocket client)

The class holds `ws`, `executionId`, `callbacks`, `reconnectAttempts`,
`maxReconnectAttempts = 3` and `reconnectTimeout`.  There is no stored
status field: `ConnectionStatus` is only ever reported through the
`onConnectionChange` callback.

Sockets and timers are modelled by identifiers allocated from counters
in the state.  Crucially, the handlers installed on a socket in
`establishConnection` are closures over `this` and are never detached:
an event fired on ANY previously created socket runs the same handler
body against the CURRENT state.  The step function therefore ignores
which socket an event arrived on, exactly as the source does. -/

inductive ConnectionStatus where
  | connecting
  | connected
  | disconnected
  | error
  deriving Repr, DecidableEq

/-- Payload (`data`) of an inbound frame: the `message` field the
`error` arm reads (absent or a string), plus an opaque tag `raw` for
the rest of the object that the other arms forward verbatim. -/
structure MsgData where
  message : Option String
  raw : Nat
  deriving Repr, DecidableEq

/-- Type `WebSocketMessage` (`types.ts`): the fields `type`, `execution_id` and `data`.
`type` is kept as a string because `handleMessage` switches on the tag
and logs/ignores unknown values. -/
structure WSMessage where
  type : String
  execution_id : String
  data : MsgData
  deriving Repr, DecidableEq

/-- Field `maxReconnectAttempts` of `ExecutionWebSocket`. -/
def maxReconnectAttempts : Nat := 3

/-- The mutable fields of the `ExecutionWebSocket` singleton.
`callbacks = none` models the empty callback object `{}` (no callback
fields defined, so optional-chained invocations do nothing);
`callbacks = some cb` models a caller-supplied callback set identified
by `cb`.  `nextSock`/`nextTimer` allocate fresh socket and timer
identifiers. -/
structure WSState where
  ws : Option Nat
  executionId : Option String
  callbacks : Option Nat
  reconnectAttempts : Nat
  reconnectTimeout : Option Nat
  nextSock : Nat
  nextTimer : Nat
  deriving Repr, DecidableEq

/-- Fresh instance: `ws = null`, `executionId = null`, `callbacks = {}`,
`reconnectAttempts = 0`, `reconnectTimeout = null`. -/
def initWSState : WSState :=
  { ws := none, executionId := none, callbacks := none,
    reconnectAttempts := 0, reconnectTimeout := none,
    nextSock := 0, nextTimer := 0 }

/-- Observable actions of the channel: callback invocations and the
effects on sockets and timers. -/
inductive WSOut where
  | cbStepComplete (cb : Nat) (d : MsgData)
  | cbExecutionComplete (cb : Nat) (d : MsgData)
  | cbError (cb : Nat) (msg : String)
  | cbConnectionChange (cb : Nat) (st : ConnectionStatus)
  | socketCreated (sock : Nat) (url : String)
  | socketClosed (sock : Nat) (code : Nat)
  | timerScheduled (timer : Nat) (delay : Nat)
  | timerCancelled (timer : Nat)
  deriving Repr, DecidableEq

/-- Invocation `this.callbacks.onConnectionChange?.(st)`. -/
def emitChange (s : WSState) (st : ConnectionStatus) : List WSOut :=
  match s.callbacks with
  | some cb => [.cbConnectionChange cb st]
  | none => []

/-- Endpoint `API_ENDPOINTS.EXECUTION_WS` prefixed by `API_CONFIG.WS_URL`
(default host). -/
def wsUrl (id : String) : String :=
  "ws://localhost:8000" ++ "/ws/execution/" ++ id

/-- Method `establishConnection()`: bail out when no execution id is stored;
otherwise report `connecting` and open a fresh socket (handler
installation is implicit: every socket ever created stays wired to the
shared handlers).  Socket construction is modelled as succeeding — the
`catch` arm around `new WebSocket` fires only when the runtime rejects
the URL. -/
def establishConnection (s : WSState) : WSState × List WSOut :=
  match s.executionId with
  | none => (s, [])
  | some id =>
    let sock := s.nextSock
    ({ s with ws := some sock, nextSock := s.nextSock + 1 },
     emitChange s .connecting ++ [.socketCreated sock (wsUrl id)])

/-- Method `connect(executionId, callbacks)`: overwrite the stored id and
callback set, zero the reconnect counter, then `establishConnection`.
Note: nothing closes or detaches a previously stored socket. -/
def connect (s : WSState) (id : String) (cb : Nat) : WSState × List WSOut :=
  establishConnection
    { s with executionId := some id, callbacks := some cb,
             reconnectAttempts := 0 }

/-- Method `disconnect()`: clear a pending reconnect timer, close the stored
socket with code 1000, null out id and callbacks, and force the
reconnect counter to `maxReconnectAttempts`. -/
def disconnectWS (s : WSState) : WSState × List WSOut :=
  let timerOuts : List WSOut :=
    match s.reconnectTimeout with
    | some t => [.timerCancelled t]
    | none => []
  let sockOuts : List WSOut :=
    match s.ws with
    | some sock => [.socketClosed sock 1000]
    | none => []
  ({ s with ws := none, executionId := none, callbacks := none,
            reconnectAttempts := maxReconnectAttempts,
            reconnectTimeout := none },
   timerOuts ++ sockOuts)

/-- Method `handleMessage(message)`: dispatch on `message.type` only.
`step_complete` and `execution_complete` forward `message.data`
(coerced, unvalidated); `execution_complete` then auto-disconnects;
`error` extracts `message.data.message`, substituting the generic
`Unknown error` text when that field is falsy; unknown tags are logged
and dropped. -/
def handleMessage (s : WSState) (m : WSMessage) : WSState × List WSOut :=
  if m.type = "step_complete" then
    (s, match s.callbacks with
        | some cb => [.cbStepComplete cb m.data]
        | none => [])
  else if m.type = "execution_complete" then
    let outs : List WSOut :=
      match s.callbacks with
      | some cb => [.cbExecutionComplete cb m.data]
      | none => []
    let (s', outs') := disconnectWS s
    (s', outs ++ outs')
  else if m.type = "error" then
    (s, match s.callbacks with
        | some cb => [.cbError cb (jsStringOr m.data.message "Unknown error")]
        | none => [])
  else (s, [])

/-- Method `handleDisconnect()` (the `onclose` handler): report
`disconnected`; then, if an execution id is stored and the counter is
below the maximum, increment the counter and schedule
`establishConnection` after `Math.min(1000 * 2**attempts, 10000)` ms. -/
def handleDisconnect (s : WSState) : WSState × List WSOut :=
  let outs := emitChange s .disconnected
  if s.executionId.isSome && decide (s.reconnectAttempts < maxReconnectAttempts) then
    let n := s.reconnectAttempts + 1
    let delay := min (1000 * 2 ^ n) 10000
    let t := s.nextTimer
    ({ s with reconnectAttempts := n, reconnectTimeout := some t,
              nextTimer := s.nextTimer + 1 },
     outs ++ [.timerScheduled t delay])
  else (s, outs)

/-- Externally delivered events: the two public methods, the four
socket events (tagged with the socket they fired on — the shared
handlers ignore the tag), and a reconnect timer firing.  A `message`
event carries `none` when `JSON.parse` on the frame throws. -/
inductive WSEvent where
  | connectEv (id : String) (cb : Nat)
  | disconnectEv
  | openEv (sock : Nat)
  | messageEv (sock : Nat) (frame : Option WSMessage)
  | closeEv (sock : Nat) (code : Nat)
  | errorEv (sock : Nat)
  | timerFireEv (timer : Nat)
  deriving Repr, DecidableEq

/-- One step of the channel.  `openEv` runs the `onopen` handler
(reset counter, report `connected`); a malformed frame is logged and
dropped; `closeEv` runs `handleDisconnect` whatever the close code;
`errorEv` reports `error` then invokes `onError` without touching the
socket; a timer that was cleared (or superseded) does nothing when it
would fire. -/
def step (s : WSState) : WSEvent → WSState × List WSOut
  | .connectEv id cb => connect s id cb
  | .disconnectEv => disconnectWS s
  | .openEv _ =>
    ({ s with reconnectAttempts := 0 }, emitChange s .connected)
  | .messageEv _ none => (s, [])
  | .messageEv _ (some m) => handleMessage s m
  | .closeEv _ _ => handleDisconnect s
  | .errorEv _ =>
    (s, emitChange s .error ++
        (match s.callbacks with
         | some cb => [.cbError cb "WebSocket connection error"]
         | none => []))
  | .timerFireEv t =>
    if s.reconnectTimeout = some t then establishConnection s else (s, [])

/-- Run a sequence of events, accumulating the outputs in order. -/
def run (s : WSState) : List WSEvent → WSState × List WSOut
  | [] => (s, [])
  | e :: es =>
    let (s', outs) := step s e
    let (s'', outs') := run s' es
    (s'', outs ++ outs')

/-- The delays of the reconnect timers scheduled in an output trace. -/
def scheduledDelays (outs : List WSOut) : List Nat :=
  outs.filterMap fun o =>
    match o with
    | .timerScheduled _ d => some d
    | _ => none

/-- Whether an output is a callback invocation (as opposed to a
socket/timer effect). -/
def WSOut.isCallback : WSOut → Bool
  | .cbStepComplete _ _ => true
  | .cbExecutionComplete _ _ => true
  | .cbError _ _ => true
  | .cbConnectionChange _ _ => true
  | _ => false

/-- Whether an event is a `connect` call (the only way a torn-down
subscription is replaced by a new one). -/
def WSEvent.isConnect : WSEvent → Bool
  | .connectEv _ _ => true
  | _ => false

/-- Socket identifiers created during an output trace, in order. -/
def createdSockets (outs : List WSOut) : List Nat :=
  outs.filterMap fun o =>
    match o with
    | .socketCreated k _ => some k
    | _ => none

/-- Whether an output closes a socket. -/
def WSOut.isSocketClosed : WSOut → Bool
  | .socketClosed _ _ => true
  | _ => false

/-- An adversarial event schedule for the reconnection policy: one
subscription whose socket closes abnormally (code 1006) before ever
opening, each scheduled reconnect timer fires, the replacement socket
again closes abnormally, and after the third failed attempt further
close and error events keep arriving. -/
def reconnectExhaustionTrace : List WSEvent :=
  [.connectEv "exec-42" 1, .closeEv 0 1006, .timerFireEv 0,
   .closeEv 1 1006, .timerFireEv 1, .closeEv 2 1006, .timerFireEv 2,
   .closeEv 3 1006, .closeEv 3 1006, .errorEv 3]

/-- A torn-down subscription: no execution id, empty callback object,
no pending reconnect timer, no stored socket.  This is exactly the
shape `disconnect()` leaves behind. -/
def clearedWS (s : WSState) : Prop :=
  s.executionId = none ∧ s.callbacks = none ∧
    s.reconnectTimeout = none ∧ s.ws = none

theorem disconnectWS_cleared (s : WSState) : clearedWS (disconnectWS s).1 := by
  simp [disconnectWS, clearedWS]

/-- On a torn-down subscription, every event other than a new `connect`
is absorbed: the state stays torn down and nothing observable happens
(no callback fires, no socket is opened or closed, no timer is
scheduled). -/
theorem step_cleared (s : WSState) (e : WSEvent) (hc : clearedWS s)
    (he : e.isConnect = false) :
    clearedWS (step s e).1 ∧ (step s e).2 = [] := by
  obtain ⟨h1, h2, h3, h4⟩ := hc
  cases e with
  | connectEv id cb => simp [WSEvent.isConnect] at he
  | disconnectEv =>
    refine ⟨disconnectWS_cleared s, ?_⟩
    simp [step, disconnectWS, h3, h4]
  | openEv sock => simp [step, emitChange, clearedWS, h1, h2, h3, h4]
  | messageEv sock f =>
    cases f with
    | none => exact ⟨⟨h1, h2, h3, h4⟩, rfl⟩
    | some m =>
      show clearedWS (handleMessage s m).1 ∧ (handleMessage s m).2 = []
      unfold handleMessage
      split_ifs <;>
        simp [disconnectWS, emitChange, clearedWS, h1, h2, h3, h4]
  | closeEv sock code =>
    simp [step, handleDisconnect, emitChange, clearedWS, h1, h2, h3, h4]
  | errorEv sock => simp [step, emitChange, clearedWS, h1, h2, h3, h4]
  | timerFireEv t => simp [step, clearedWS, h1, h2, h3, h4]

/-- Lemma `step_cleared` extended along any sequence of non-`connect`
events. -/
theorem run_cleared (evs : List WSEvent) (s : WSState) (hc : clearedWS s)
    (he : evs.all (fun e => !e.isConnect) = true) :
    clearedWS (run s evs).1 ∧ (run s evs).2 = [] := by
  induction evs generalizing s with
  | nil => exact ⟨hc, rfl⟩
  | cons e es ih =>
    simp only [List.all_cons, Bool.and_eq_true, Bool.not_eq_true'] at he
    obtain ⟨hstep, houts⟩ := step_cleared s e hc he.1
    obtain ⟨hrun, houts'⟩ := ih (step s e).1 hstep (by simpa using he.2)
    refine ⟨?_, ?_⟩ <;> simp [run, hrun, houts, houts']

/-- C2: every request whose fetch has not settled by the configured
timeout is aborted exactly once (the timer runs `controller.abort()`
a single time) and fails with an `ApiRequestError` of status 408. -/
theorem c2_timeout_aborts_once (timeout : Nat) (b : FetchBehavior)
    (h : timeout < b.settleTime) :
    request timeout b = (.error ⟨"Request timeout", 408, none⟩, 1) := by
  simp [request, h]

/-- Witness for C2: a fetch that would succeed only at 40000 ms against
the default 30000 ms timeout is aborted once and fails with 408. -/
theorem c2_timeout_aborts_once_witness :
    30000 < (FetchBehavior.response 40000
      ⟨true, 200, "OK", "x", none⟩).settleTime ∧
    request 30000 (.response 40000 ⟨true, 200, "OK", "x", none⟩) =
      (.error ⟨"Request timeout", 408, none⟩, 1) :=
  ⟨by decide, c2_timeout_aborts_once 30000 _ (by decide)⟩

/-- Counterexample for C3: a 500 response with statusText
`Internal Server Error` and an unparsable body fails with message
`Request failed`, not with the statusText; the statusText only lands in
the `detail` field of the payload.  The claim that the message defaults
to the statusText is therefore false at this input. -/
theorem c3_fallback_message_counterexample :
    (request 30000 (.response 5
        ⟨false, 500, "Internal Server Error", "garbage", none⟩)).1 =
      .error ⟨"Request failed", 500,
        some ⟨some "Request failed", some "Internal Server Error"⟩⟩ ∧
    "Request failed" ≠ "Internal Server Error" :=
  ⟨rfl, by decide⟩

/-- C3 (amended): for a non-2xx response that settles in time, the
failure status equals the HTTP status code; when the body cannot be
parsed as a structured error payload, the message defaults to the
generic `Request failed` text and the statusText is carried in the
`detail` field of the substituted payload. -/
theorem c3_status_and_fallback (timeout t : Nat) (r : HttpResp)
    (ht : t ≤ timeout) (hok : r.ok = false) :
    resultStatus (request timeout (.response t r)).1 = some r.status ∧
    (r.bodyJson = none →
      (request timeout (.response t r)).1 =
        .error ⟨"Request failed", r.status,
          some ⟨some "Request failed", some r.statusText⟩⟩) := by
  have hnl : ¬ timeout < t := Nat.not_lt.mpr ht
  cases hj : r.bodyJson with
  | none =>
    simp [request, FetchBehavior.settleTime, hnl, hok, hj, resultStatus,
      jsStringOr]
  | some j =>
    refine ⟨?_, fun hj2 => by simp [hj] at hj2⟩
    cases hjs : j.errorField with
    | none =>
      simp [request, FetchBehavior.settleTime, hnl, hok, hj, hjs,
        resultStatus, jsStringOr]
    | some msg =>
      simp [request, FetchBehavior.settleTime, hnl, hok, hj, hjs,
        resultStatus, jsStringOr]

/-- Witness for C3 (amended): a 500 response with an unparsable body
fails with status 500, the generic message, and the statusText in the
payload detail. -/
theorem c3_status_and_fallback_witness :
    5 ≤ 30000 ∧
    (HttpResp.mk false 500 "Internal Server Error" "garbage" none).ok
      = false ∧
    resultStatus (request 30000 (.response 5
      ⟨false, 500, "Internal Server Error", "garbage", none⟩)).1
      = some 500 ∧
    (request 30000 (.response 5
        ⟨false, 500, "Internal Server Error", "garbage", none⟩)).1 =
      .error ⟨"Request failed", 500,
        some ⟨some "Request failed", some "Internal Server Error"⟩⟩ := by
  have h := c3_status_and_fallback 30000 5
    ⟨false, 500, "Internal Server Error", "garbage", none⟩
    (by decide) (by decide)
  exact ⟨by decide, by decide, h.1, h.2 rfl⟩

/-- Counterexample for C4: a fetch rejection named `AbortError` that
settles at 5 ms — long before the 30000 ms deadline, so the abort
cannot have come from the client timeout (indeed the abort counter
stays 0) — is classified as a 408 timeout, not as a status-0 transport
failure.  The claim that non-timeout aborts yield status 0 is therefore
false at this input. -/
theorem c4_foreign_abort_counterexample :
    (request 30000 (.reject 5 "AbortError" "The operation was aborted")).1
      = .error ⟨"Request timeout", 408, none⟩ ∧
    (request 30000 (.reject 5 "AbortError" "The operation was aborted")).2
      = 0 ∧
    (408 : Nat) ≠ 0 :=
  ⟨rfl, rfl, by decide⟩

/-- C4 (amended): a transport-level failure in which no response is
obtained and whose error is not named `AbortError` (DNS failure,
connection refused) fails with status 0 and the transport message;
a rejection named `AbortError` is always classified as the 408
timeout, whatever caused the abort. -/
theorem c4_nonabort_transport_status_zero (timeout t : Nat)
    (name msg : String) (ht : t ≤ timeout) (hn : name ≠ "AbortError") :
    request timeout (.reject t name msg) = (.error ⟨msg, 0, none⟩, 0) := by
  have hnl : ¬ timeout < t := Nat.not_lt.mpr ht
  simp [request, FetchBehavior.settleTime, hnl, hn]

/-- Witness for C4 (amended): a connection-refused style rejection
fails with status 0 and the transport message. -/
theorem c4_nonabort_transport_status_zero_witness :
    5 ≤ 30000 ∧ "TypeError" ≠ "AbortError" ∧
    request 30000 (.reject 5 "TypeError" "Failed to fetch") =
      (.error ⟨"Failed to fetch", 0, none⟩, 0) :=
  ⟨by decide, by decide,
    c4_nonabort_transport_status_zero 30000 5 "TypeError" "Failed to fetch"
      (by decide) (by decide)⟩

/-- C9: a 2xx response with an empty body that settles in time resolves
successfully with the content-free value and is never classified as a
failure (and the abort never runs). -/
theorem c9_empty_body_ok (timeout t : Nat) (r : HttpResp)
    (ht : t ≤ timeout) (hok : r.ok = true) (hempty : r.bodyText = "") :
    request timeout (.response t r) = (.ok .empty, 0) := by
  have hnl : ¬ timeout < t := Nat.not_lt.mpr ht
  simp [request, FetchBehavior.settleTime, hnl, hok, hempty]

/-- Witness for C9: a 204 response with an empty body resolves with the
content-free value. -/
theorem c9_empty_body_ok_witness :
    5 ≤ 30000 ∧
    (HttpResp.mk true 204 "No Content" "" none).ok = true ∧
    (HttpResp.mk true 204 "No Content" "" none).bodyText = "" ∧
    request 30000 (.response 5 ⟨true, 204, "No Content", "", none⟩) =
      (.ok .empty, 0) :=
  ⟨by decide, by decide, by decide,
    c9_empty_body_ok 30000 5 ⟨true, 204, "No Content", "", none⟩
      (by decide) (by decide) (by decide)⟩

/-- Counterexample for C1: after `connect` to execution `A` with
callback set 1 (opening socket 0) followed by `connect` to execution
`B` with callback set 2 (opening socket 1, so socket 0 is the previous,
still-live socket: the stored socket is now socket 1 and socket 0 was
never closed), a frame arriving on the OLD socket 0 is still delivered
to a callback — the shared `onmessage` handler routes it to the current
callback set 2.  The claim that no event arriving on the old socket is
ever delivered to any callback is therefore false at this input. -/
theorem c1_old_socket_delivery_counterexample :
    (run initWSState [.connectEv "A" 1, .openEv 0, .connectEv "B" 2]).1.ws
      = some 1 ∧
    ((run initWSState [.connectEv "A" 1, .openEv 0, .connectEv "B" 2]).2.all
      (fun o => !o.isSocketClosed)) = true ∧
    (step (run initWSState [.connectEv "A" 1, .openEv 0, .connectEv "B" 2]).1
        (.messageEv 0 (some ⟨"step_complete", "A", ⟨none, 7⟩⟩))).2 =
      [.cbStepComplete 2 ⟨none, 7⟩] :=
  ⟨rfl, rfl, rfl⟩

/-- C1 (amended): `connect` overwrites the stored execution id and
callback set and resets the reconnect counter, but never closes or
detaches the previous socket; because the handlers are shared, a
message event is processed identically whichever socket it fired on,
so events arriving on the old socket are delivered to the currently
stored (new) callback set. -/
theorem c1_connect_discards_without_close (s : WSState) (id : String)
    (cb : Nat) (sock sock2 : Nat) (f : Option WSMessage) :
    (connect s id cb).1.executionId = some id ∧
    (connect s id cb).1.callbacks = some cb ∧
    (connect s id cb).1.reconnectAttempts = 0 ∧
    ((connect s id cb).2.all (fun o => !o.isSocketClosed)) = true ∧
    step (connect s id cb).1 (.messageEv sock f) =
      step (connect s id cb).1 (.messageEv sock2 f) := by
  refine ⟨rfl, rfl, rfl, ?_, ?_⟩
  · simp [connect, establishConnection, emitChange, WSOut.isSocketClosed]
  · cases f <;> rfl

/-- C5: on a close of an active subscription with the reconnect budget
not yet exhausted, attempt `n = reconnectAttempts + 1` is scheduled
after `min (1000 * 2 ^ n) 10000` ms and the counter becomes `n`; once
the counter has reached the maximum, a close changes nothing and
schedules nothing; concretely, a subscription whose socket keeps
failing schedules exactly the delays 2000, 4000, 8000 ms, opens
exactly the four sockets 0..3 (the initial one plus three reconnect
attempts), and no fourth reconnect is ever scheduled however many
further close or error events arrive. -/
theorem c5_reconnect_backoff (s : WSState) (sock code : Nat)
    (hid : s.executionId.isSome = true)
    (hlt : s.reconnectAttempts < maxReconnectAttempts) :
    (step s (.closeEv sock code)).2 =
      emitChange s .disconnected ++
        [.timerScheduled s.nextTimer
          (min (1000 * 2 ^ (s.reconnectAttempts + 1)) 10000)] ∧
    (step s (.closeEv sock code)).1.reconnectAttempts
      = s.reconnectAttempts + 1 ∧
    (step s (.closeEv sock code)).1.reconnectTimeout = some s.nextTimer ∧
    (∀ s1 : WSState, maxReconnectAttempts ≤ s1.reconnectAttempts →
      ∀ sock1 code1 : Nat,
        step s1 (.closeEv sock1 code1) = (s1, emitChange s1 .disconnected)) ∧
    scheduledDelays (run initWSState reconnectExhaustionTrace).2
      = [2000, 4000, 8000] ∧
    createdSockets (run initWSState reconnectExhaustionTrace).2
      = [0, 1, 2, 3] := by
  refine ⟨?_, ?_, ?_, ?_, rfl, rfl⟩
  · simp [step, handleDisconnect, hid, hlt]
  · simp [step, handleDisconnect, hid, hlt]
  · simp [step, handleDisconnect, hid, hlt]
  · intro s1 h1 sock1 code1
    have h2 : ¬ s1.reconnectAttempts < maxReconnectAttempts :=
      Nat.not_lt.mpr h1
    simp [step, handleDisconnect, h2]

/-- Witness for C5: the subscription of `reconnectExhaustionTrace`
after its first abnormal close schedules attempt 1 with delay 2000 ms,
and an exhausted subscription absorbs a further close. -/
theorem c5_reconnect_backoff_witness :
    ((run initWSState [.connectEv "exec-42" 1]).1.executionId.isSome
      = true) ∧
    ((run initWSState [.connectEv "exec-42" 1]).1.reconnectAttempts
      < maxReconnectAttempts) ∧
    (step (run initWSState [.connectEv "exec-42" 1]).1
        (.closeEv 0 1006)).2 =
      emitChange (run initWSState [.connectEv "exec-42" 1]).1
          .disconnected ++
        [.timerScheduled
          (run initWSState [.connectEv "exec-42" 1]).1.nextTimer
          (min (1000 * 2 ^
            ((run initWSState [.connectEv "exec-42" 1]).1.reconnectAttempts
              + 1)) 10000)] ∧
    step (run initWSState reconnectExhaustionTrace).1 (.closeEv 3 1006)
      = ((run initWSState reconnectExhaustionTrace).1,
         emitChange (run initWSState reconnectExhaustionTrace).1
           .disconnected) ∧
    scheduledDelays (run initWSState reconnectExhaustionTrace).2
      = [2000, 4000, 8000] ∧
    createdSockets (run initWSState reconnectExhaustionTrace).2
      = [0, 1, 2, 3] := by
  have h := c5_reconnect_backoff (run initWSState [.connectEv "exec-42" 1]).1
    0 1006 (by decide) (by decide)
  exact ⟨by decide, by decide, h.1,
    h.2.2.2.1 (run initWSState reconnectExhaustionTrace).1 (by decide) 3 1006,
    h.2.2.2.2.1, h.2.2.2.2.2⟩

/-- C6: `disconnect()` on a subscription with a pending reconnect timer
and a stored socket cancels exactly that timer, closes the socket with
the normal-closure code 1000, clears the execution id and the callback
set, and forces the reconnect counter to the maximum; afterwards, any
sequence of events of that subscription that does not contain a new
`connect` call — pending or future close events, timer firings,
messages, socket errors — produces no output at all: in particular no
`connecting` transition is reported and no reconnect is scheduled. -/
theorem c6_disconnect_cancels_and_silences (s : WSState) (t sock : Nat)
    (ht : s.reconnectTimeout = some t) (hw : s.ws = some sock)
    (evs : List WSEvent) (hevs : evs.all (fun e => !e.isConnect) = true) :
    (disconnectWS s).2 = [.timerCancelled t, .socketClosed sock 1000] ∧
    (disconnectWS s).1.executionId = none ∧
    (disconnectWS s).1.callbacks = none ∧
    (disconnectWS s).1.reconnectAttempts = maxReconnectAttempts ∧
    (disconnectWS s).1.reconnectTimeout = none ∧
    (run (disconnectWS s).1 evs).2 = [] := by
  refine ⟨?_, rfl, rfl, rfl, rfl, ?_⟩
  · simp [disconnectWS, ht, hw]
  · exact (run_cleared evs _ (disconnectWS_cleared s) hevs).2

/-- Witness for C6: the subscription to execution `A` after one
abnormal close has reconnect timer 0 pending and socket 0 stored;
calling `disconnect()` cancels timer 0, closes socket 0 with code 1000,
and the four subsequent non-`connect` events (the pending close of
socket 0, the firing of the cancelled timer, an open and a message)
produce no output. -/
theorem c6_disconnect_cancels_and_silences_witness :
    (run initWSState
      [.connectEv "A" 1, .closeEv 0 1006]).1.reconnectTimeout = some 0 ∧
    (run initWSState [.connectEv "A" 1, .closeEv 0 1006]).1.ws = some 0 ∧
    ([WSEvent.closeEv 0 1005, .timerFireEv 0, .openEv 0,
      .messageEv 0 (some ⟨"step_complete", "A", ⟨none, 1⟩⟩)].all
        (fun e => !e.isConnect)) = true ∧
    (disconnectWS
      (run initWSState [.connectEv "A" 1, .closeEv 0 1006]).1).2 =
      [.timerCancelled 0, .socketClosed 0 1000] ∧
    (run (disconnectWS
        (run initWSState [.connectEv "A" 1, .closeEv 0 1006]).1).1
      [WSEvent.closeEv 0 1005, .timerFireEv 0, .openEv 0,
       .messageEv 0 (some ⟨"step_complete", "A", ⟨none, 1⟩⟩)]).2 = [] := by
  have h := c6_disconnect_cancels_and_silences
    (run initWSState [.connectEv "A" 1, .closeEv 0 1006]).1 0 0
    (by decide) (by decide)
    [WSEvent.closeEv 0 1005, .timerFireEv 0, .openEv 0,
     .messageEv 0 (some ⟨"step_complete", "A", ⟨none, 1⟩⟩)]
    (by decide)
  exact ⟨by decide, by decide, by decide, h.1, h.2.2.2.2.2⟩

/-- C7: routing an `execution_complete` frame on a subscription with a
stored callback set invokes `onExecutionComplete` with the frame
payload and leaves the channel torn down; afterwards, any sequence of
events of that subscription that does not contain a new `connect` call
produces no output at all — no step, completion, or error callback ever
fires again, so the completion callback fires at most once per
subscription. -/
theorem c7_completion_closes_channel (s : WSState) (cb : Nat)
    (hcb : s.callbacks = some cb) (sock : Nat) (m : WSMessage)
    (hm : m.type = "execution_complete") (evs : List WSEvent)
    (hevs : evs.all (fun e => !e.isConnect) = true) :
    WSOut.cbExecutionComplete cb m.data
      ∈ (step s (.messageEv sock (some m))).2 ∧
    (run (step s (.messageEv sock (some m))).1 evs).2 = [] := by
  have hstate : (step s (.messageEv sock (some m))).1 = (disconnectWS s).1 := by
    show (handleMessage s m).1 = (disconnectWS s).1
    unfold handleMessage
    rw [hm]
    simp
  constructor
  · show WSOut.cbExecutionComplete cb m.data ∈ (handleMessage s m).2
    unfold handleMessage
    rw [hm]
    simp [hcb]
  · rw [hstate]
    exact (run_cleared evs _ (disconnectWS_cleared s) hevs).2

/-- Witness for C7: on the subscription to execution `exec-42` with
callback set 1, an `execution_complete` frame invokes the completion
callback, and the three further inbound frames (a step update, a second
completion, a server error frame) produce no output. -/
theorem c7_completion_closes_channel_witness :
    (run initWSState [.connectEv "exec-42" 1]).1.callbacks = some 1 ∧
    (WSMessage.mk "execution_complete" "exec-42" ⟨none, 5⟩).type
      = "execution_complete" ∧
    ([WSEvent.messageEv 0 (some ⟨"step_complete", "exec-42", ⟨none, 6⟩⟩),
      .messageEv 0 (some ⟨"execution_complete", "exec-42", ⟨none, 7⟩⟩),
      .messageEv 0 (some ⟨"error", "exec-42", ⟨some "boom", 8⟩⟩)].all
        (fun e => !e.isConnect)) = true ∧
    WSOut.cbExecutionComplete 1 ⟨none, 5⟩
      ∈ (step (run initWSState [.connectEv "exec-42" 1]).1
          (.messageEv 0
            (some ⟨"execution_complete", "exec-42", ⟨none, 5⟩⟩))).2 ∧
    (run (step (run initWSState [.connectEv "exec-42" 1]).1
        (.messageEv 0
          (some ⟨"execution_complete", "exec-42", ⟨none, 5⟩⟩))).1
      [WSEvent.messageEv 0 (some ⟨"step_complete", "exec-42", ⟨none, 6⟩⟩),
       .messageEv 0 (some ⟨"execution_complete", "exec-42", ⟨none, 7⟩⟩),
       .messageEv 0 (some ⟨"error", "exec-42", ⟨some "boom", 8⟩⟩)]).2
      = [] := by
  have h := c7_completion_closes_channel
    (run initWSState [.connectEv "exec-42" 1]).1 1 (by decide) 0
    ⟨"execution_complete", "exec-42", ⟨none, 5⟩⟩ (by decide)
    [WSEvent.messageEv 0 (some ⟨"step_complete", "exec-42", ⟨none, 6⟩⟩),
     .messageEv 0 (some ⟨"execution_complete", "exec-42", ⟨none, 7⟩⟩),
     .messageEv 0 (some ⟨"error", "exec-42", ⟨some "boom", 8⟩⟩)]
    (by decide)
  exact ⟨by decide, by decide, by decide, h.1, h.2⟩

/-- C8: routing an inbound frame of type `error` on a subscription with
a stored callback set invokes `onError` with the `message` field of the
payload — substituting the generic `Unknown error` text when the field
is absent — and nothing else: the state is unchanged (no teardown, the
stored socket stays stored) and the single callback invocation is the
only output (no socket is closed, no status change is reported). -/
theorem c8_error_frame_keeps_connection (s : WSState) (cb : Nat)
    (hcb : s.callbacks = some cb) (sock : Nat) (m : WSMessage)
    (hm : m.type = "error") :
    (step s (.messageEv sock (some m))).2 =
      [.cbError cb (jsStringOr m.data.message "Unknown error")] ∧
    (step s (.messageEv sock (some m))).1 = s := by
  show (handleMessage s m).2 = _ ∧ (handleMessage s m).1 = s
  unfold handleMessage
  rw [hm]
  simp [hcb]

/-- Witness for C8: on the subscription to execution `A` with callback
set 1, an `error` frame whose payload carries no message invokes
`onError` with the generic text and leaves the state untouched. -/
theorem c8_error_frame_keeps_connection_witness :
    (run initWSState [.connectEv "A" 1]).1.callbacks = some 1 ∧
    (WSMessage.mk "error" "A" ⟨none, 9⟩).type = "error" ∧
    (step (run initWSState [.connectEv "A" 1]).1
        (.messageEv 0 (some ⟨"error", "A", ⟨none, 9⟩⟩))).2 =
      [.cbError 1 (jsStringOr (MsgData.mk none 9).message "Unknown error")] ∧
    (step (run initWSState [.connectEv "A" 1]).1
        (.messageEv 0 (some ⟨"error", "A", ⟨none, 9⟩⟩))).1 =
      (run initWSState [.connectEv "A" 1]).1 := by
  have h := c8_error_frame_keeps_connection
    (run initWSState [.connectEv "A" 1]).1 1 (by decide) 0
    ⟨"error", "A", ⟨none, 9⟩⟩ (by decide)
  exact ⟨by decide, by decide, h.1, h.2⟩

/-- C10: the message router dispatches on the `type` tag alone and
never reads the `execution_id` field of a frame: replacing that field
by anything leaves the step — state change and callback invocations —
unchanged; concretely, a subscription to execution `A` still has a
`step_complete` frame stamped with execution id `B` delivered to its
callbacks exactly as one stamped `A`. -/
theorem c10_router_ignores_execution_id (s : WSState) (sock : Nat)
    (m : WSMessage) (e : String) :
    step s (.messageEv sock (some ⟨m.type, e, m.data⟩)) =
      step s (.messageEv sock (some m)) ∧
    (step (run initWSState [.connectEv "A" 1]).1
        (.messageEv 0 (some ⟨"step_complete", "B", ⟨none, 3⟩⟩))).2 =
      [.cbStepComplete 1 ⟨none, 3⟩] ∧
    step (run initWSState [.connectEv "A" 1]).1
        (.messageEv 0 (some ⟨"step_complete", "B", ⟨none, 3⟩⟩)) =
      step (run initWSState [.connectEv "A" 1]).1
        (.messageEv 0 (some ⟨"step_complete", "A", ⟨none, 3⟩⟩)) := by
  refine ⟨?_, rfl, rfl⟩
  cases m
  rfl

end SmartScript
